import Mathlib

/-!
Shallow embedding of the AI Fitness Coach nutrition pipeline:
the OpenAI vision module (src/lib/ai/openai-vision.ts), the Inngest
daily aggregator (updateNutritionData), and the two-stage food-photo
pipeline (analyzeFoodImage / processNutritionAnalysis).
JavaScript numbers are modelled as rationals, timestamps as
milliseconds on the local clock, and external library calls
(the model request, JSON.parse) by their outcomes.
-/

namespace OpenAIVision

/-- Configuration of the OpenAI client as built by `new OpenAI({...})`
when the OPENAI_API_KEY environment variable is present. -/
structure OpenAIClient where
  apiKey : String
  maxRetries : Nat
  timeout : Nat
deriving DecidableEq

/-- Module-level initialization: `openai` is set to a client exactly when
`process.env.OPENAI_API_KEY` is present, otherwise it stays null
(only a warning is logged). -/
def initOpenAI : Option String → Option OpenAIClient
  | some key => some { apiKey := key, maxRetries := 3, timeout := 60000 }
  | none => none

/-- Errors thrown along `analyzeImageWithOpenAI`. Each constructor is one
`throw` site of the source (the last one is the implicit JS TypeError
raised by `analysis.foodItems.length` in the success-path log call when
`foodItems` is absent from the parsed JSON). -/
inductive AnalyzeError where
  /-- thrown by getOpenAIClient: OPENAI_API_KEY environment variable is required -/
  | missingApiKey
  /-- thrown when the first choice carries no content: No response from OpenAI -/
  | noResponse
  /-- thrown when JSON.parse fails: Invalid JSON response from OpenAI -/
  | invalidJsonResponse
  /-- JS TypeError from reading length of undefined in the logging call -/
  | typeErrorFoodItems
deriving DecidableEq

/-- Module startup never throws: with the key absent the module still
loads, leaving the client null. -/
def moduleStartup (apiKey : Option String) : Except AnalyzeError (Option OpenAIClient) :=
  .ok (initOpenAI apiKey)

/-- getOpenAIClient: throws when the module-level client is null,
otherwise returns it. -/
def getOpenAIClient : Option OpenAIClient → Except AnalyzeError OpenAIClient
  | none => .error .missingApiKey
  | some c => .ok c

/-- One food item of the NutritionAnalysis interface. -/
structure FoodItem where
  name : String
  quantity : String
  calories : ℚ
  protein_g : ℚ
  carbs_g : ℚ
  fat_g : ℚ
  fiber_g : ℚ
deriving DecidableEq

/-- The parsed JSON object cast to NutritionAnalysis. Since
`JSON.parse(content) as NutritionAnalysis` performs no runtime
validation, every field may be absent; a JSON value that is not an
object behaves, for the accesses the code performs, like an object with
every field absent. -/
structure NutritionAnalysisJson where
  foodItems : Option (List FoodItem)
  totalCalories : Option ℚ
  totalProtein : Option ℚ
  totalCarbs : Option ℚ
  totalFat : Option ℚ
  totalFiber : Option ℚ
  confidenceScore : Option ℚ
  analysisNotes : Option String
deriving DecidableEq

/-- Content string of a model reply, represented together with the
outcome of JSON.parse on it (JSON.parse is a JS library call, modelled
by its outcome). The empty string is kept separate because it is falsy
in JavaScript and hits the no-content check before JSON.parse runs. -/
inductive ReplyContent where
  | emptyText
  | notJson (raw : String)
  | json (v : NutritionAnalysisJson)
deriving DecidableEq

/-- message field of a chat completion choice; content may be null. -/
structure ChatMessage where
  content : Option ReplyContent
deriving DecidableEq

/-- one element of response.choices; message may be missing. -/
structure ChatChoice where
  message : Option ChatMessage
deriving DecidableEq

/-- the chat completion response returned by the provider client. -/
structure ChatResponse where
  choices : List ChatChoice
deriving DecidableEq

/-- the optional-chaining access response.choices[0]?.message?.content. -/
def extractContent (r : ChatResponse) : Option ReplyContent :=
  match r.choices.head? with
  | none => none
  | some c =>
    match c.message with
    | none => none
    | some m => m.content

/-- analyzeImageWithOpenAI: obtains the client (throwing when it is
null), sends the request (the response is the parameter), then checks
`if (!content) throw`, runs JSON.parse (throwing the invalid-JSON error
on failure), and returns the cast value; the success-path log call
reads `analysis.foodItems.length`, which raises a TypeError when
`foodItems` is absent. No other field is validated. -/
def analyzeImageWithOpenAI (client : Option OpenAIClient) (response : ChatResponse) :
    Except AnalyzeError NutritionAnalysisJson :=
  match getOpenAIClient client with
  | .error e => .error e
  | .ok _ =>
    match extractContent response with
    | none => .error .noResponse
    | some .emptyText => .error .noResponse
    | some (.notJson _) => .error .invalidJsonResponse
    | some (.json v) =>
      match v.foodItems with
      | none => .error .typeErrorFoodItems
      | some _ => .ok v

/-- Concrete parsed model reply whose reported total (999) differs from
the sum of its per-item calories (95). -/
def sampleMismatched : NutritionAnalysisJson :=
  { foodItems := some [{ name := "apple", quantity := "1 medium", calories := 95,
                         protein_g := 0, carbs_g := 25, fat_g := 0, fiber_g := 4 }],
    totalCalories := some 999,
    totalProtein := some 0,
    totalCarbs := some 25,
    totalFat := some 0,
    totalFiber := some 4,
    confidenceScore := some (17/20),
    analysisNotes := some "clear photo" }

end OpenAIVision

namespace DailyAggregator

/-- One row of nutrition_logs as selected by the update-daily-summary
step; the five numeric columns are nullable (the reduce guards each
with || 0). created_at is in milliseconds on the local clock. -/
structure NutritionLogRow where
  user_id : String
  created_at : Nat
  total_calories : Option ℚ
  total_protein_g : Option ℚ
  total_carbs_g : Option ℚ
  total_fat_g : Option ℚ
  total_fiber_g : Option ℚ
deriving DecidableEq

def msPerDay : Nat := 86400000

/-- new Date(now.getFullYear(), now.getMonth(), now.getDate()):
midnight of the local day containing now. -/
def startOfDay (now : Nat) : Nat := now / msPerDay * msPerDay

/-- new Date(y, m, d, 23, 59, 59, 999): the last millisecond of the
local day containing now. -/
def endOfDay (now : Nat) : Nat := startOfDay now + (msPerDay - 1)

/-- the range filter of the query: gte startOfDay, lt endOfDay. -/
def inTodayRange (createdAt now : Nat) : Bool :=
  decide (startOfDay now ≤ createdAt) && decide (createdAt < endOfDay now)

/-- the supabase query: rows of this user whose created_at satisfies
gte(startOfDay) and lt(endOfDay). -/
def fetchTodayLogs (db : List NutritionLogRow) (userId : String) (now : Nat) :
    List NutritionLogRow :=
  db.filter (fun r => r.user_id == userId && inTodayRange r.created_at now)

/-- accumulator shape of the reduce in update-daily-summary. -/
structure DailyTotals where
  calories : ℚ
  protein : ℚ
  carbs : ℚ
  fat : ℚ
  fiber : ℚ
deriving DecidableEq

/-- JS (x || 0) on a nullable numeric column: null and undefined map to
0; the number 0 (the only falsy number here) also maps to 0. -/
def orZero : Option ℚ → ℚ
  | none => 0
  | some x => x

/-- todayLogs.reduce((acc, log) => ({...}), {0,0,0,0,0}). -/
def dailyTotals (logs : List NutritionLogRow) : DailyTotals :=
  logs.foldl
    (fun acc log =>
      { calories := acc.calories + orZero log.total_calories,
        protein := acc.protein + orZero log.total_protein_g,
        carbs := acc.carbs + orZero log.total_carbs_g,
        fat := acc.fat + orZero log.total_fat_g,
        fiber := acc.fiber + orZero log.total_fiber_g })
    { calories := 0, protein := 0, carbs := 0, fat := 0, fiber := 0 }

/-- The whole update-daily-summary step: a pure read of the persisted
rows followed by the reduce; it returns the totals and leaves the
database unchanged (the step performs no write). -/
def updateDailySummaryStep (db : List NutritionLogRow) (userId : String) (now : Nat) :
    DailyTotals × List NutritionLogRow :=
  (dailyTotals (fetchTodayLogs db userId now), db)

/-- payload of the nutrition/low-confidence event. -/
structure LowConfidenceEvent where
  logId : String
  userId : String
  confidenceScore : ℚ
deriving DecidableEq

/-- the check-insights-trigger step: sendEvent exactly when
confidenceScore < 0.7, with payload {logId, userId, confidenceScore}. -/
def checkInsightsTrigger (logId userId : String) (confidenceScore : ℚ) :
    Option LowConfidenceEvent :=
  if confidenceScore < 7/10 then
    some { logId := logId, userId := userId, confidenceScore := confidenceScore }
  else
    none

end DailyAggregator

namespace FoodPipeline

/-- item of the step-1 schema of analyzeFoodImage. -/
structure InitialFoodItem where
  name : String
  estimatedQuantity : String
  confidence : ℚ
deriving DecidableEq

/-- step-1 result object of analyzeFoodImage. -/
structure InitialAnalysis where
  foodItems : List InitialFoodItem
  totalCaloriesEstimate : ℚ
  confidence : ℚ
deriving DecidableEq

/-- step-2 (validator) result object of analyzeFoodImage. -/
structure ValidationResult where
  isReasonable : Bool
  adjustedCalories : ℚ
  reasoning : String
deriving DecidableEq

/-- return value of analyzeFoodImage: the spread of the step-1 object
plus finalCalories and validationNotes. -/
structure NutritionEstimate where
  foodItems : List InitialFoodItem
  totalCaloriesEstimate : ℚ
  confidence : ℚ
  finalCalories : ℚ
  validationNotes : String
deriving DecidableEq

/-- failure of one of the two awaited generateObject calls; an await
that throws propagates out of analyzeFoodImage. -/
inductive ModelCallError where
  | transportFailure
  | invalidModelOutput
deriving DecidableEq

/-- analyzeFoodImage: await step 1, await step 2 seeded with the step-1
object, return {...initialAnalysis.object, finalCalories:
validation.object.adjustedCalories, validationNotes:
validation.object.reasoning}. The two awaited model calls are passed as
their outcomes. -/
def analyzeFoodImage (initialAnalysis : Except ModelCallError InitialAnalysis)
    (validate : InitialAnalysis → Except ModelCallError ValidationResult) :
    Except ModelCallError NutritionEstimate :=
  match initialAnalysis with
  | .error e => .error e
  | .ok i =>
    match validate i with
    | .error e => .error e
    | .ok v =>
      .ok { foodItems := i.foodItems,
            totalCaloriesEstimate := i.totalCaloriesEstimate,
            confidence := i.confidence,
            finalCalories := v.adjustedCalories,
            validationNotes := v.reasoning }

/-- return value of processNutritionAnalysis: the spread of the input
result plus the confirmation flag and a message. -/
structure ProcessedNutrition where
  result : NutritionEstimate
  requiresUserConfirmation : Bool
  message : String
deriving DecidableEq

/-- processNutritionAnalysis: if result.confidence < 0.7 the result is
flagged for user confirmation, otherwise not. -/
def processNutritionAnalysis (result : NutritionEstimate) : ProcessedNutrition :=
  if result.confidence < 7/10 then
    { result := result, requiresUserConfirmation := true,
      message := "I am not entirely sure about this estimate. Please review and adjust if needed." }
  else
    { result := result, requiresUserConfirmation := false,
      message := "Nutrition estimate looks good!" }

end FoodPipeline

/-- Claim C1 counterexample: the claim asserts a record created at
exactly 23:59:59.999 local time is included in that day of its user.
With now at noon of day 0 (43200000 ms), a record created at
23:59:59.999 of day 0 (86399999 ms) fails the range check and is absent
from the fetched rows, so it is excluded from the totals. -/
theorem claim_C1_counterexample :
    DailyAggregator.inTodayRange 86399999 43200000 = false ∧
    DailyAggregator.fetchTodayLogs
      [{ user_id := "user1", created_at := 86399999, total_calories := some 100,
         total_protein_g := some 1, total_carbs_g := some 2, total_fat_g := some 3,
         total_fiber_g := some 4 }] "user1" 43200000 = [] := by
  constructor
  · decide
  · decide

/-- Claim C1 (amended): a record is picked up by the update-daily-summary
fetch exactly when its user matches and its creation timestamp lies in
the half-open window from local midnight (inclusive) to 23:59:59.999
local time (exclusive); in particular a record created at exactly
23:59:59.999 is EXCLUDED from that day, and one created at 00:00:00.000
the next day is excluded from the prior day as well. -/
theorem claim_C1 (db : List DailyAggregator.NutritionLogRow) (userId : String)
    (now : Nat) (r : DailyAggregator.NutritionLogRow) :
    (r ∈ DailyAggregator.fetchTodayLogs db userId now ↔
      r ∈ db ∧ r.user_id = userId ∧
      DailyAggregator.startOfDay now ≤ r.created_at ∧
      r.created_at < DailyAggregator.endOfDay now) ∧
    DailyAggregator.inTodayRange (DailyAggregator.endOfDay now) now = false ∧
    DailyAggregator.inTodayRange
      (DailyAggregator.startOfDay now + DailyAggregator.msPerDay) now = false := by
  refine ⟨?_, ?_, ?_⟩
  · simp [DailyAggregator.fetchTodayLogs, List.mem_filter,
      DailyAggregator.inTodayRange, Bool.and_eq_true, beq_iff_eq,
      decide_eq_true_eq, and_assoc]
  · simp [DailyAggregator.inTodayRange, DailyAggregator.endOfDay]
  · simp [DailyAggregator.inTodayRange, DailyAggregator.endOfDay,
      DailyAggregator.msPerDay]

/-- Claim C2: the check-insights-trigger step emits the low-confidence
event, carrying logId, userId and confidenceScore, exactly when
confidenceScore < 0.7; at 0.65 it is emitted, at 0.70 it is not. -/
theorem claim_C2 (logId userId : String) (c : ℚ) :
    ((DailyAggregator.checkInsightsTrigger logId userId c).isSome ↔ c < 7/10) ∧
    (DailyAggregator.checkInsightsTrigger logId userId c =
      if c < 7/10 then
        some { logId := logId, userId := userId, confidenceScore := c }
      else none) ∧
    DailyAggregator.checkInsightsTrigger logId userId (13/20) =
      some { logId := logId, userId := userId, confidenceScore := 13/20 } ∧
    DailyAggregator.checkInsightsTrigger logId userId (7/10) = none := by
  refine ⟨?_, rfl, ?_, ?_⟩
  · unfold DailyAggregator.checkInsightsTrigger
    split <;> rename_i h <;> simp [h]
  · unfold DailyAggregator.checkInsightsTrigger
    rw [if_pos (by norm_num)]
  · unfold DailyAggregator.checkInsightsTrigger
    rw [if_neg (by norm_num)]

/-- Claim C3: processNutritionAnalysis flags requiresUserConfirmation
exactly when confidence < 0.7, it is false when confidence >= 0.7, and
at exactly 0.7 it is false. -/
theorem claim_C3 (r : FoodPipeline.NutritionEstimate) :
    ((FoodPipeline.processNutritionAnalysis r).requiresUserConfirmation = true ↔
      r.confidence < 7/10) ∧
    ((FoodPipeline.processNutritionAnalysis r).requiresUserConfirmation = false ↔
      7/10 ≤ r.confidence) ∧
    (FoodPipeline.processNutritionAnalysis
      { r with confidence := 7/10 }).requiresUserConfirmation = false := by
  refine ⟨?_, ?_, ?_⟩
  · unfold FoodPipeline.processNutritionAnalysis
    split <;> rename_i h <;> simp [h]
  · unfold FoodPipeline.processNutritionAnalysis
    split
    · rename_i h
      simp [not_le.mpr h]
    · rename_i h
      simp [le_of_not_lt h]
  · unfold FoodPipeline.processNutritionAnalysis
    rw [if_neg (by norm_num)]

/-- Claim C4 counterexample: a parseable JSON reply that is missing the
required totals, confidence and notes fields of NutritionAnalysis (only
foodItems present, and empty) does NOT raise any error: it is returned
as a success, so it reaches persistence. -/
theorem claim_C4_counterexample :
    OpenAIVision.analyzeImageWithOpenAI (OpenAIVision.initOpenAI (some "key"))
      { choices := [{ message := some { content := some (.json
          { foodItems := some [], totalCalories := none, totalProtein := none,
            totalCarbs := none, totalFat := none, totalFiber := none,
            confidenceScore := none, analysisNotes := none }) } }] } =
      .ok { foodItems := some [], totalCalories := none, totalProtein := none,
            totalCarbs := none, totalFat := none, totalFiber := none,
            confidenceScore := none, analysisNotes := none } := rfl

/-- Claim C4 (amended): a non-JSON reply raises the distinct, catchable
invalid-JSON error and never reaches persistence; but a parseable JSON
reply missing required fields does not raise a distinct error: when
foodItems is absent the function fails with a generic TypeError (from
the success logging line), and when foodItems is present the analysis
is returned without any field validation, even with all other required
fields missing, so it does reach persistence. -/
theorem claim_C4 (key : String) (resp : OpenAIVision.ChatResponse) :
    (∀ raw, OpenAIVision.extractContent resp = some (.notJson raw) →
      OpenAIVision.analyzeImageWithOpenAI (OpenAIVision.initOpenAI (some key)) resp =
        .error .invalidJsonResponse) ∧
    (∀ v, OpenAIVision.extractContent resp = some (.json v) → v.foodItems = none →
      OpenAIVision.analyzeImageWithOpenAI (OpenAIVision.initOpenAI (some key)) resp =
        .error .typeErrorFoodItems) ∧
    (∀ v items, OpenAIVision.extractContent resp = some (.json v) →
      v.foodItems = some items →
      OpenAIVision.analyzeImageWithOpenAI (OpenAIVision.initOpenAI (some key)) resp =
        .ok v) := by
  refine ⟨?_, ?_, ?_⟩
  · intro raw h
    simp [OpenAIVision.analyzeImageWithOpenAI, OpenAIVision.initOpenAI,
      OpenAIVision.getOpenAIClient, h]
  · intro v h hf
    simp [OpenAIVision.analyzeImageWithOpenAI, OpenAIVision.initOpenAI,
      OpenAIVision.getOpenAIClient, h, hf]
  · intro v items h hf
    simp [OpenAIVision.analyzeImageWithOpenAI, OpenAIVision.initOpenAI,
      OpenAIVision.getOpenAIClient, h, hf]

/-- Claim C4 witness: a concrete unparseable reply raises exactly the
invalid-JSON error. -/
theorem claim_C4_witness :
    OpenAIVision.analyzeImageWithOpenAI (OpenAIVision.initOpenAI (some "key"))
      { choices := [{ message := some { content := some (.notJson "oops") } }] } =
      .error .invalidJsonResponse :=
  (claim_C4 "key"
    { choices := [{ message := some { content := some (.notJson "oops") } }] }).1
    "oops" rfl

/-- Claim C5: analyzeFoodImage either fails with one of the defined
error kinds, or returns the full record whose finalCalories equals the
validator adjustedCalories while foodItems, totalCaloriesEstimate and
confidence pass through from the first-stage estimate unchanged (the
validation notes come from the validator reasoning); no partially
populated record is possible. -/
theorem claim_C5 (initial : Except FoodPipeline.ModelCallError FoodPipeline.InitialAnalysis)
    (validate : FoodPipeline.InitialAnalysis →
      Except FoodPipeline.ModelCallError FoodPipeline.ValidationResult) :
    (∃ e, FoodPipeline.analyzeFoodImage initial validate = .error e) ∨
    (∃ i v, initial = .ok i ∧ validate i = .ok v ∧
      FoodPipeline.analyzeFoodImage initial validate =
        .ok { foodItems := i.foodItems,
              totalCaloriesEstimate := i.totalCaloriesEstimate,
              confidence := i.confidence,
              finalCalories := v.adjustedCalories,
              validationNotes := v.reasoning }) := by
  cases hi : initial with
  | error e => exact Or.inl ⟨e, by simp [FoodPipeline.analyzeFoodImage]⟩
  | ok i =>
    cases hv : validate i with
    | error e =>
      exact Or.inl ⟨e, by simp [FoodPipeline.analyzeFoodImage, hv]⟩
    | ok v =>
      exact Or.inr ⟨i, v, rfl, hv, by simp [FoodPipeline.analyzeFoodImage, hv]⟩

/-- Claim C6: the update-daily-summary step is idempotent under
redelivery: it leaves the persisted record set unchanged, and running
its read-and-reduce a second time over the state left by the first run
yields exactly the same daily totals. -/
theorem claim_C6 (db : List DailyAggregator.NutritionLogRow) (userId : String)
    (now : Nat) :
    (DailyAggregator.updateDailySummaryStep db userId now).2 = db ∧
    (DailyAggregator.updateDailySummaryStep
        (DailyAggregator.updateDailySummaryStep db userId now).2 userId now).1 =
      (DailyAggregator.updateDailySummaryStep db userId now).1 :=
  ⟨rfl, rfl⟩

/-- Claim C7: the reduce of update-daily-summary computes exactly the
field-wise sum of the five numeric fields over the fetched list, with a
null numeric field contributing 0. -/
theorem claim_C7 (logs : List DailyAggregator.NutritionLogRow) :
    DailyAggregator.dailyTotals logs =
      { calories := (logs.map fun l => DailyAggregator.orZero l.total_calories).sum,
        protein := (logs.map fun l => DailyAggregator.orZero l.total_protein_g).sum,
        carbs := (logs.map fun l => DailyAggregator.orZero l.total_carbs_g).sum,
        fat := (logs.map fun l => DailyAggregator.orZero l.total_fat_g).sum,
        fiber := (logs.map fun l => DailyAggregator.orZero l.total_fiber_g).sum } := by
  have key : ∀ (acc : DailyAggregator.DailyTotals),
      List.foldl
        (fun acc log =>
          { calories := acc.calories + DailyAggregator.orZero log.total_calories,
            protein := acc.protein + DailyAggregator.orZero log.total_protein_g,
            carbs := acc.carbs + DailyAggregator.orZero log.total_carbs_g,
            fat := acc.fat + DailyAggregator.orZero log.total_fat_g,
            fiber := acc.fiber + DailyAggregator.orZero log.total_fiber_g })
        acc logs =
      { calories := acc.calories +
          (logs.map fun l => DailyAggregator.orZero l.total_calories).sum,
        protein := acc.protein +
          (logs.map fun l => DailyAggregator.orZero l.total_protein_g).sum,
        carbs := acc.carbs +
          (logs.map fun l => DailyAggregator.orZero l.total_carbs_g).sum,
        fat := acc.fat + (logs.map fun l => DailyAggregator.orZero l.total_fat_g).sum,
        fiber := acc.fiber +
          (logs.map fun l => DailyAggregator.orZero l.total_fiber_g).sum } := by
    induction logs with
    | nil => intro acc; simp
    | cons hd tl ih =>
      intro acc
      simp [List.foldl_cons, ih, DailyAggregator.DailyTotals.mk.injEq, add_assoc]
  have h0 := key { calories := 0, protein := 0, carbs := 0, fat := 0, fiber := 0 }
  simpa [DailyAggregator.dailyTotals] using h0

/-- Claim C8 counterexample: with the API key absent, module startup
succeeds (only leaving the client null) rather than failing fatally;
the configuration error is raised per-request, at the first use of the
client. This contradicts the claim that the error is fatal at startup
of the affected component rather than per-request. -/
theorem claim_C8_counterexample :
    OpenAIVision.moduleStartup none = .ok none ∧
    OpenAIVision.analyzeImageWithOpenAI (OpenAIVision.initOpenAI none)
      { choices := [] } = .error .missingApiKey :=
  ⟨rfl, rfl⟩

/-- Claim C8 (amended): when the API key is absent, module startup
completes without error and the client stays uninitialized; every
request then raises the clear configuration error (the missing-key
error) rather than a fabricated or empty result, so the estimator and
validator are disabled entirely, per-request, and never a silent
no-op. -/
theorem claim_C8 (resp : OpenAIVision.ChatResponse) :
    OpenAIVision.moduleStartup none = .ok none ∧
    OpenAIVision.initOpenAI none = none ∧
    OpenAIVision.analyzeImageWithOpenAI (OpenAIVision.initOpenAI none) resp =
      .error .missingApiKey ∧
    ∀ v, OpenAIVision.analyzeImageWithOpenAI (OpenAIVision.initOpenAI none) resp ≠
      .ok v := by
  refine ⟨rfl, rfl, rfl, ?_⟩
  intro v h
  simp [OpenAIVision.analyzeImageWithOpenAI, OpenAIVision.initOpenAI,
    OpenAIVision.getOpenAIClient] at h

/-- Claim C9: the pipeline does not enforce that reported totals equal
the sum of per-item fields: a parseable reply whose totalCalories (999)
differs from the sum of its per-item calories (95) is returned
unchanged by analyzeImageWithOpenAI, without error. -/
theorem claim_C9 :
    OpenAIVision.analyzeImageWithOpenAI (OpenAIVision.initOpenAI (some "key"))
      { choices := [{ message := some { content := some (.json
          OpenAIVision.sampleMismatched) } }] } =
      .ok OpenAIVision.sampleMismatched ∧
    OpenAIVision.sampleMismatched.totalCalories ≠
      some (((OpenAIVision.sampleMismatched.foodItems.getD []).map
        (fun i => i.calories)).sum) := by
  refine ⟨rfl, ?_⟩
  simp [OpenAIVision.sampleMismatched]

/-- Claim C10: a model response whose first choice carries no message
content (empty choices array, missing message, or null content) makes
analyzeImageWithOpenAI throw the no-response error rather than return
an undefined or partially populated analysis. -/
theorem claim_C10 (key : String) (resp : OpenAIVision.ChatResponse)
    (h : resp.choices = [] ∨
      (∃ c cs, resp.choices = c :: cs ∧ c.message = none) ∨
      (∃ m c cs, resp.choices = c :: cs ∧ c.message = some m ∧ m.content = none)) :
    OpenAIVision.analyzeImageWithOpenAI (OpenAIVision.initOpenAI (some key)) resp =
      .error .noResponse := by
  have hx : OpenAIVision.extractContent resp = none := by
    rcases h with h | ⟨c, cs, hc, hm⟩ | ⟨m, c, cs, hc, hm, hcon⟩
    · simp [OpenAIVision.extractContent, h]
    · simp [OpenAIVision.extractContent, hc, hm]
    · simp [OpenAIVision.extractContent, hc, hm, hcon]
  simp [OpenAIVision.analyzeImageWithOpenAI, OpenAIVision.initOpenAI,
    OpenAIVision.getOpenAIClient, hx]

/-- Claim C10 witness: at a concrete response with an empty choices
array the function returns the no-response error. -/
theorem claim_C10_witness :
    OpenAIVision.analyzeImageWithOpenAI (OpenAIVision.initOpenAI (some "key"))
      { choices := [] } = .error .noResponse :=
  claim_C10 "key" { choices := [] } (Or.inl rfl)
